import Mathlib

/-!
Verification of the uModbus TCP client ADU codec.

Byte strings are embedded as `List Nat`, each element a byte value.
The functions of `umodbus/client/tcp.py` are embedded directly; the
response-decoding module `umodbus._functions`, which the repository
imports but whose file is not available, is modelled from the spec
(sections 4.2, 4.3 and 7) and marked as such.
-/

namespace UModbus

/-- Embeds `struct.pack` with format `>HHHB`: three big-endian unsigned
16-bit fields followed by one unsigned byte. `struct.error` (raised when a
value is out of range for its format character) is embedded as `none`. -/
def pack_HHHB (a b c d : Nat) : Option (List Nat) :=
  if a ≤ 65535 ∧ b ≤ 65535 ∧ c ≤ 65535 ∧ d ≤ 255 then
    some [a / 256, a % 256, b / 256, b % 256, c / 256, c % 256, d]
  else none

/-- Embeds `struct.pack` with format `>BHH`: one unsigned byte followed by
two big-endian unsigned 16-bit fields, as used by the tests to build
request PDUs. -/
def pack_BHH (a b c : Nat) : Option (List Nat) :=
  if a ≤ 255 ∧ b ≤ 65535 ∧ c ≤ 65535 then
    some [a, b / 256, b % 256, c / 256, c % 256]
  else none

/-- The upper end of the `randint(0, 65536)` call in `create_mbap_header`.
Python `randint` includes both ends, so the value 65536 itself can be
drawn. -/
def randintUpperBound : Nat := 65536

/-- Embeds `create_mbap_header` from `umodbus/client/tcp.py`. The random
draw `randint(0, 65536)` is made an explicit argument `transaction_id`
ranging over `0 .. randintUpperBound`; the rest is
`struct.pack(">HHHB", transaction_id, 0, len(pdu) + 1, slave_id)`. -/
def create_mbap_header (transaction_id slave_id : Nat) (pdu : List Nat) :
    Option (List Nat) :=
  pack_HHHB transaction_id 0 (pdu.length + 1) slave_id

/-- Embeds `create_request_adu` from `umodbus/client/tcp.py`:
`create_mbap_header(slave_id, pdu) + pdu`. -/
def create_request_adu (transaction_id slave_id : Nat) (pdu : List Nat) :
    Option (List Nat) :=
  (create_mbap_header transaction_id slave_id pdu).map (fun h => h ++ pdu)

/-- Modelled from the spec: the error kinds of section 7 that the response
path can involve. `truncatedADU` is the error kind the spec assigns to an
ADU of fewer than 7 bytes; the theorems below examine whether the parse
path ever produces it. -/
inductive ModbusError where
  | truncatedADU
  | malformedResponse
  | headerMismatch
  | byteCountMismatch
  | responseMismatch
  | unsupportedFunctionCode
  | exceptionResponse (original_code exception_code : Nat)
  deriving Repr, DecidableEq

/-- Modelled from the spec: the decoded values a response yields, one shape
per family of function codes (section 4.2). -/
inductive DecodedValues where
  | bits (values : List Nat)
  | registers (values : List Nat)
  | writeSingle (address value : Nat)
  | writeMultiple (starting_address quantity : Nat)
  deriving Repr, DecidableEq

/-- The eight bit-values of one byte, least significant bit first. -/
def byteToBitsLSB (b : Nat) : List Nat :=
  [b % 2, b / 2 % 2, b / 4 % 2, b / 8 % 2,
   b / 16 % 2, b / 32 % 2, b / 64 % 2, b / 128 % 2]

/-- Modelled from the spec (section 4.3, codes 1 and 2): unpack each data
byte into up to 8 bit-values, least significant bit first, and truncate to
the requested quantity. -/
def unpackBits (data : List Nat) (quantity : Nat) : List Nat :=
  ((data.map byteToBitsLSB).flatten).take quantity

/-- Reads consecutive big-endian unsigned 16-bit values from a byte list,
as `struct.unpack` with a run of `H` format characters does. -/
def u16bePairs : List Nat → List Nat
  | [] => []
  | [_] => []
  | a :: b :: rest => (256 * a + b) :: u16bePairs rest

/-- Modelled from the spec (section 4.3, codes 1 and 2): the response PDU
after the function code is `byte_count(u8)` then `byte_count` data bytes;
the data is unpacked LSB-first and truncated to the quantity found in
bytes 3 and 4 of the request PDU. -/
def decode_single_bit_response (rest req_pdu : List Nat) :
    Except ModbusError DecodedValues :=
  match rest with
  | bc :: data =>
    if data.length = bc then
      match req_pdu.drop 3 with
      | qh :: ql :: _ => .ok (.bits (unpackBits data (256 * qh + ql)))
      | _ => .error .malformedResponse
    else .error .malformedResponse
  | [] => .error .malformedResponse

/-- Modelled from the spec (section 4.3, codes 3 and 4): the response PDU
after the function code is `byte_count(u8)` then `byte_count / 2` big-endian
16-bit register values; `byte_count` must be even, else
`MalformedResponse`. -/
def decode_multi_bit_response (rest : List Nat) :
    Except ModbusError DecodedValues :=
  match rest with
  | bc :: data =>
    if bc % 2 = 1 then .error .malformedResponse
    else if data.length = bc then .ok (.registers (u16bePairs data))
    else .error .malformedResponse
  | [] => .error .malformedResponse

/-- Modelled from the spec (section 4.3, codes 5 and 6): the response PDU
must be byte-for-byte equal to the request PDU, any mismatch being a
validation failure; on success the echoed address and value are the
decoded data. -/
def decode_single_write_response (resp_pdu req_pdu : List Nat) :
    Except ModbusError DecodedValues :=
  if resp_pdu = req_pdu then
    match resp_pdu with
    | [_, ah, al, vh, vl] => .ok (.writeSingle (256 * ah + al) (256 * vh + vl))
    | _ => .error .malformedResponse
  else .error .responseMismatch

/-- Modelled from the spec (section 4.3, codes 15 and 16): the response PDU
echoes the starting address and quantity of the request, which must
field-match the corresponding request bytes. -/
def decode_multi_write_response (resp_pdu req_pdu : List Nat) :
    Except ModbusError DecodedValues :=
  match resp_pdu with
  | [_, sh, sl, qh, ql] =>
    if (req_pdu.drop 1).take 4 = [sh, sl, qh, ql] then
      .ok (.writeMultiple (256 * sh + sl) (256 * qh + ql))
    else .error .responseMismatch
  | _ => .error .malformedResponse

/-- Modelled from the spec: `umodbus._functions.create_function_from_response_pdu`,
whose file is not available. Per section 4.2 it first tests bit 0x80 of the
response function code and produces an exception response carrying the
original function code and the exception-code byte; otherwise it dispatches
on the request function code, which the response function code must match,
to the shape decoders of section 4.3. The request context is the request
PDU, which the visible caller passes through unchanged. -/
def create_function_from_response_pdu (resp_pdu req_pdu : List Nat) :
    Except ModbusError DecodedValues :=
  match resp_pdu with
  | [] => .error .malformedResponse
  | b0 :: rest =>
    if b0.testBit 7 then
      match rest with
      | ec :: _ => .error (.exceptionResponse (b0 % 128) ec)
      | [] => .error .malformedResponse
    else
      match req_pdu with
      | [] => .error .malformedResponse
      | rc :: _ =>
        if b0 = rc then
          if b0 = 1 ∨ b0 = 2 then decode_single_bit_response rest req_pdu
          else if b0 = 3 ∨ b0 = 4 then decode_multi_bit_response rest
          else if b0 = 5 ∨ b0 = 6 then decode_single_write_response resp_pdu req_pdu
          else if b0 = 15 ∨ b0 = 16 then decode_multi_write_response resp_pdu req_pdu
          else .error .unsupportedFunctionCode
        else .error .headerMismatch

/-- Embeds `parse_response_adu` from `umodbus/client/tcp.py`: it slices the
response PDU as `resp_adu[7:]` with no inspection of the first 7 bytes and
hands it, together with the request context it merely passes through, to
`create_function_from_response_pdu`. -/
def parse_response_adu (resp_adu req_pdu : List Nat) :
    Except ModbusError DecodedValues :=
  create_function_from_response_pdu (resp_adu.drop 7) req_pdu

instance {ε α : Type} [DecidableEq ε] [DecidableEq α] :
    DecidableEq (Except ε α)
  | .error a, .error b =>
    if h : a = b then .isTrue (by rw [h])
    else .isFalse (fun hc => h (Except.error.inj hc))
  | .error _, .ok _ => .isFalse (fun hc => Except.noConfusion hc)
  | .ok _, .error _ => .isFalse (fun hc => Except.noConfusion hc)
  | .ok a, .ok b =>
    if h : a = b then .isTrue (by rw [h])
    else .isFalse (fun hc => h (Except.ok.inj hc))

/-- Characterisation of the header builder: it succeeds exactly when every
field fits its format character, and then yields the packed 7-byte list. -/
theorem create_mbap_header_eq_some_iff (t s : Nat) (pdu h : List Nat) :
    create_mbap_header t s pdu = some h ↔
      (t ≤ 65535 ∧ pdu.length + 1 ≤ 65535 ∧ s ≤ 255) ∧
      h = [t / 256, t % 256, 0, 0,
           (pdu.length + 1) / 256, (pdu.length + 1) % 256, s] := by
  unfold create_mbap_header pack_HHHB
  split
  · rename_i hcond
    obtain ⟨h1, _, h3, h4⟩ := hcond
    simp [h1, h3, h4, eq_comm]
  · rename_i hcond
    constructor
    · intro hcontra
      exact Option.noConfusion hcontra
    · rintro ⟨⟨h1, h3, h4⟩, _⟩
      exact absurd ⟨h1, by omega, h3, h4⟩ hcond

/-- The number of 16-bit values read from a byte list is half the number of
bytes. -/
theorem u16bePairs_length : ∀ l : List Nat, (u16bePairs l).length = l.length / 2
  | [] => by simp [u16bePairs]
  | [_] => by simp [u16bePairs]
  | _ :: _ :: rest => by
    simp only [u16bePairs, List.length_cons, u16bePairs_length rest]
    omega

/-- Characterisation of request-ADU assembly: it succeeds exactly when the
header pack succeeds, and then the ADU is the packed header followed by the
PDU. -/
theorem create_request_adu_eq_some_iff (t s : Nat) (pdu adu : List Nat) :
    create_request_adu t s pdu = some adu ↔
      (t ≤ 65535 ∧ pdu.length + 1 ≤ 65535 ∧ s ≤ 255) ∧
      adu = [t / 256, t % 256, 0, 0,
             (pdu.length + 1) / 256, (pdu.length + 1) % 256, s] ++ pdu := by
  unfold create_request_adu
  rw [Option.map_eq_some']
  constructor
  · rintro ⟨hdr, hhdr, rfl⟩
    obtain ⟨hc, rfl⟩ := (create_mbap_header_eq_some_iff t s pdu hdr).mp hhdr
    exact ⟨hc, rfl⟩
  · rintro ⟨hc, rfl⟩
    exact ⟨_, (create_mbap_header_eq_some_iff t s pdu _).mpr ⟨hc, rfl⟩, rfl⟩

/-- Claim C1: an ADU returned by `create_request_adu` is the 7-byte MBAP
header followed by the PDU unchanged, splitting it at byte 7 recovers the
PDU exactly, and the big-endian length field in header bytes 4 and 5 equals
the PDU length plus one. -/
theorem create_request_adu_roundtrip (t s : Nat) (pdu adu : List Nat)
    (h : create_request_adu t s pdu = some adu) :
    (∃ hdr, create_mbap_header t s pdu = some hdr ∧ hdr.length = 7 ∧
      adu = hdr ++ pdu) ∧
    adu.take 7 ++ adu.drop 7 = adu ∧
    adu.drop 7 = pdu ∧
    256 * adu.getD 4 0 + adu.getD 5 0 = pdu.length + 1 := by
  obtain ⟨hc, rfl⟩ := (create_request_adu_eq_some_iff t s pdu adu).mp h
  refine ⟨⟨_, (create_mbap_header_eq_some_iff t s pdu _).mpr ⟨hc, rfl⟩,
    by simp, rfl⟩, by simp, by simp, ?_⟩
  simp [List.getD]
  omega

/-- Claim C1 witness: the round trip evaluated on the read-coils request of
the module docstring (transaction id 8, slave 1, PDU for function code 1,
coil 100, quantity 3). -/
theorem create_request_adu_roundtrip_witness :
    create_request_adu 8 1 [1, 0, 100, 0, 3] =
      some [0, 8, 0, 0, 0, 6, 1, 1, 0, 100, 0, 3] ∧
    ((∃ hdr, create_mbap_header 8 1 [1, 0, 100, 0, 3] = some hdr ∧
        hdr.length = 7 ∧
        [0, 8, 0, 0, 0, 6, 1, 1, 0, 100, 0, 3] = hdr ++ [1, 0, 100, 0, 3]) ∧
      ([0, 8, 0, 0, 0, 6, 1, 1, 0, 100, 0, 3] : List Nat).take 7 ++
        ([0, 8, 0, 0, 0, 6, 1, 1, 0, 100, 0, 3] : List Nat).drop 7 =
        [0, 8, 0, 0, 0, 6, 1, 1, 0, 100, 0, 3] ∧
      ([0, 8, 0, 0, 0, 6, 1, 1, 0, 100, 0, 3] : List Nat).drop 7 =
        [1, 0, 100, 0, 3] ∧
      256 * ([0, 8, 0, 0, 0, 6, 1, 1, 0, 100, 0, 3] : List Nat).getD 4 0 +
        ([0, 8, 0, 0, 0, 6, 1, 1, 0, 100, 0, 3] : List Nat).getD 5 0 =
        [1, 0, 100, 0, 3].length + 1) :=
  ⟨by decide, create_request_adu_roundtrip 8 1 [1, 0, 100, 0, 3]
    [0, 8, 0, 0, 0, 6, 1, 1, 0, 100, 0, 3] (by decide)⟩

/-- Claim C2 counterexample: the claim fails as stated. The random draw can
be 65536 (Python randint includes both ends), and then the pack raises
rather than returning 7 bytes; likewise a PDU of 65535 bytes makes the
length field overflow, so no header is returned for it either. -/
theorem create_mbap_header_not_total :
    (65536 ≤ randintUpperBound ∧ create_mbap_header 65536 0 [] = none) ∧
    create_mbap_header 0 0 (List.replicate 65535 0) = none := by
  refine ⟨⟨by decide, by decide⟩, ?_⟩
  unfold create_mbap_header pack_HHHB
  rw [if_neg]
  simp only [List.length_replicate]
  omega

/-- Claim C2 (amended): whenever the drawn transaction id is at most 65535,
the slave id at most 255 and the PDU length plus one at most 65535 — that
is, whenever the pack succeeds — `create_mbap_header` returns exactly 7
bytes, big-endian `(u16 transaction_id, u16 0, u16 (len(pdu) + 1),
u8 slave_id)`. -/
theorem create_mbap_header_layout (t s : Nat) (pdu : List Nat)
    (ht : t ≤ 65535) (hs : s ≤ 255) (hl : pdu.length + 1 ≤ 65535) :
    create_mbap_header t s pdu =
      some [t / 256, t % 256, 0, 0,
            (pdu.length + 1) / 256, (pdu.length + 1) % 256, s] ∧
    [t / 256, t % 256, 0, 0,
     (pdu.length + 1) / 256, (pdu.length + 1) % 256, s].length = 7 ∧
    256 * (t / 256) + t % 256 = t ∧
    256 * ((pdu.length + 1) / 256) + (pdu.length + 1) % 256 =
      pdu.length + 1 :=
  ⟨(create_mbap_header_eq_some_iff t s pdu _).mpr ⟨⟨ht, hl, hs⟩, rfl⟩,
    by simp, by omega, by omega⟩

/-- Claim C2 witness: the header layout evaluated at transaction id 8,
slave 1 and the 5-byte read-coils PDU of the module docstring. -/
theorem create_mbap_header_layout_witness :
    (8 : Nat) ≤ 65535 ∧ (1 : Nat) ≤ 255 ∧
      ([1, 0, 100, 0, 3] : List Nat).length + 1 ≤ 65535 ∧
    create_mbap_header 8 1 [1, 0, 100, 0, 3] = some [0, 8, 0, 0, 0, 6, 1] :=
  ⟨by decide, by decide, by decide,
    (create_mbap_header_layout 8 1 [1, 0, 100, 0, 3]
      (by decide) (by decide) (by decide)).1⟩

/-- Claim C3: the transaction-id draw is `randint(0, 65536)`, whose upper
end is included by Python, so the draw 65536 is possible; at that draw the
u16 pack of the transaction id fails, so the out-of-range failure branch is
reachable, contradicting the claim and the comment in the source that calls
65536 the maximum number fitting in 2 bytes. -/
theorem create_mbap_header_overflow_draw :
    65536 ≤ randintUpperBound ∧ create_mbap_header 65536 1 [] = none :=
  ⟨by decide, by decide⟩

/-- Claim C10: two ADUs built from the same slave id and the same PDU agree
on every byte from index 2 onward and have the same length; only the two
transaction-id bytes may differ. -/
theorem create_request_adu_deterministic_after_transaction_id
    (t1 t2 s : Nat) (pdu a1 a2 : List Nat)
    (h1 : create_request_adu t1 s pdu = some a1)
    (h2 : create_request_adu t2 s pdu = some a2) :
    a1.drop 2 = a2.drop 2 ∧ a1.length = a2.length := by
  obtain ⟨hc1, rfl⟩ := (create_request_adu_eq_some_iff t1 s pdu a1).mp h1
  obtain ⟨hc2, rfl⟩ := (create_request_adu_eq_some_iff t2 s pdu a2).mp h2
  exact ⟨by simp, by simp⟩

/-- Claim C10 witness: two draws, 0 and 65535, for the same write-single-coil
request give ADUs differing only in the first two bytes. -/
theorem create_request_adu_deterministic_witness :
    create_request_adu 0 1 [5, 0, 1, 0, 0] =
      some [0, 0, 0, 0, 0, 6, 1, 5, 0, 1, 0, 0] ∧
    create_request_adu 65535 1 [5, 0, 1, 0, 0] =
      some [255, 255, 0, 0, 0, 6, 1, 5, 0, 1, 0, 0] ∧
    ([0, 0, 0, 0, 0, 6, 1, 5, 0, 1, 0, 0] : List Nat).drop 2 =
      ([255, 255, 0, 0, 0, 6, 1, 5, 0, 1, 0, 0] : List Nat).drop 2 ∧
    ([0, 0, 0, 0, 0, 6, 1, 5, 0, 1, 0, 0] : List Nat).length =
      ([255, 255, 0, 0, 0, 6, 1, 5, 0, 1, 0, 0] : List Nat).length :=
  ⟨by decide, by decide,
    create_request_adu_deterministic_after_transaction_id 0 65535 1
      [5, 0, 1, 0, 0] _ _ (by decide) (by decide)⟩

/-- Claim C4 counterexample: unpacking the data bytes 0xAA and 0x02
LSB-first and truncating to quantity 10 does not give the claimed sequence
(1,0,1,0,1,0,1,0,0,1); the parse of the concrete read-coils response does
not return it either. -/
theorem read_coils_decode_cex :
    unpackBits [170, 2] 10 ≠ [1, 0, 1, 0, 1, 0, 1, 0, 0, 1] ∧
    parse_response_adu [0, 1, 0, 0, 0, 5, 1, 1, 2, 170, 2] [1, 0, 0, 0, 10] ≠
      .ok (.bits [1, 0, 1, 0, 1, 0, 1, 0, 0, 1]) := by decide

/-- Claim C4 (amended): for the read-coils request with quantity 10 whose
response carries byte count 2 and data bytes 0xAA and 0x02, the decoded
result is the bit sequence (0,1,0,1,0,1,0,1,0,1), obtained by unpacking
each data byte into up to 8 bit-values LSB-first and truncating to the
requested quantity of 10. -/
theorem read_coils_decode :
    pack_BHH 1 0 10 = some [1, 0, 0, 0, 10] ∧
    parse_response_adu [0, 1, 0, 0, 0, 5, 1, 1, 2, 170, 2] [1, 0, 0, 0, 10] =
      .ok (.bits [0, 1, 0, 1, 0, 1, 0, 1, 0, 1]) ∧
    [0, 1, 0, 1, 0, 1, 0, 1, 0, 1] = unpackBits [170, 2] 10 := by decide

/-- Claim C5 counterexample: a 3-byte input to `parse_response_adu` does
not fail with the `TruncatedADU` error: the slice at byte 7 yields an empty
PDU, which the PDU decoder rejects as `MalformedResponse`. -/
theorem parse_short_adu_cex :
    parse_response_adu [0, 8, 0] [1, 0, 0, 0, 10] =
      .error .malformedResponse ∧
    parse_response_adu [0, 8, 0] [1, 0, 0, 0, 10] ≠
      .error .truncatedADU := by decide

/-- Claim C5 (amended): for every input of fewer than 7 bytes,
`parse_response_adu` performs no length check and does not fail with
`TruncatedADU`: it slices off the first 7 bytes, leaving an empty PDU,
which it hands on to PDU decoding, where the failure surfaces as
`MalformedResponse`. -/
theorem parse_short_adu_no_truncation_check (resp_adu req_pdu : List Nat)
    (h : resp_adu.length < 7) :
    parse_response_adu resp_adu req_pdu = .error .malformedResponse ∧
    parse_response_adu resp_adu req_pdu ≠ .error .truncatedADU := by
  have hd : resp_adu.drop 7 = [] := List.drop_eq_nil_of_le (by omega)
  constructor <;>
    simp [parse_response_adu, hd, create_function_from_response_pdu]

/-- Claim C5 witness: the behaviour on the concrete 3-byte input 0x00 0x08
0x00. -/
theorem parse_short_adu_no_truncation_check_witness :
    ([0, 8, 0] : List Nat).length < 7 ∧
    (parse_response_adu [0, 8, 0] [5, 0, 1, 0, 0] =
        .error .malformedResponse ∧
      parse_response_adu [0, 8, 0] [5, 0, 1, 0, 0] ≠
        .error .truncatedADU) :=
  ⟨by decide,
    parse_short_adu_no_truncation_check [0, 8, 0] [5, 0, 1, 0, 0] (by decide)⟩

/-- Claim C6: whenever the first byte of the response PDU has bit 0x80 set,
the parse never returns a successful decoded value, and when the
exception-code byte is present it returns the exception response carrying
the original function code (the first byte with bit 0x80 cleared) and that
byte, whatever the request context is. -/
theorem parse_response_exception_detected (resp_adu req_pdu : List Nat)
    (b0 : Nat) (rest : List Nat)
    (hsplit : resp_adu.drop 7 = b0 :: rest) (hbit : b0.testBit 7 = true) :
    (∀ v, parse_response_adu resp_adu req_pdu ≠ .ok v) ∧
    (∀ ec tl, rest = ec :: tl →
      parse_response_adu resp_adu req_pdu =
        .error (.exceptionResponse (b0 % 128) ec)) := by
  unfold parse_response_adu
  rw [hsplit]
  unfold create_function_from_response_pdu
  cases rest with
  | nil =>
    refine ⟨fun v => by simp [hbit], fun ec tl hc => List.noConfusion hc⟩
  | cons e tl0 =>
    refine ⟨fun v => by simp [hbit], ?_⟩
    rintro ec tl ⟨rfl, rfl⟩
    simp [hbit]

/-- Claim C6 witness: an exception response for read coils, function code
byte 0x81 and exception code 2, is reported as the exception response with
original code 1 and exception code 2, and is not a successful value. -/
theorem parse_response_exception_detected_witness :
    parse_response_adu [0, 1, 0, 0, 0, 3, 1, 129, 2] [1, 0, 0, 0, 10] ≠
      .ok (.bits [1]) ∧
    parse_response_adu [0, 1, 0, 0, 0, 3, 1, 129, 2] [1, 0, 0, 0, 10] =
      .error (.exceptionResponse 1 2) :=
  ⟨(parse_response_exception_detected [0, 1, 0, 0, 0, 3, 1, 129, 2]
      [1, 0, 0, 0, 10] 129 [2] (by decide) (by decide)).1 (.bits [1]),
   (parse_response_exception_detected [0, 1, 0, 0, 0, 3, 1, 129, 2]
      [1, 0, 0, 0, 10] 129 [2] (by decide) (by decide)).2 2 [] rfl⟩

/-- Claim C7 counterexample: the request ADU for write-single-coil has unit
id 1 in byte 6; a response identical except for unit id 2 in byte 6 is
still decoded to a successful value, not rejected. -/
theorem parse_response_unit_id_ignored_cex :
    create_request_adu 8 1 [5, 0, 1, 0, 0] =
      some [0, 8, 0, 0, 0, 6, 1, 5, 0, 1, 0, 0] ∧
    parse_response_adu [0, 8, 0, 0, 0, 6, 2, 5, 0, 1, 0, 0] [5, 0, 1, 0, 0] =
      .ok (.writeSingle 1 0) := by decide

/-- Claim C7 (amended): `parse_response_adu` never inspects the first 7
bytes of the response, so any two responses with the same PDU — in
particular two responses differing only in the unit-id byte — are decoded
identically; a unit-id mismatch with the request is never rejected. -/
theorem parse_response_header_blind (h1 h2 pdu req_pdu : List Nat)
    (hl1 : h1.length = 7) (hl2 : h2.length = 7) :
    parse_response_adu (h1 ++ pdu) req_pdu =
      parse_response_adu (h2 ++ pdu) req_pdu := by
  unfold parse_response_adu
  rw [List.drop_left' hl1, List.drop_left' hl2]

/-- Claim C7 witness: headers with unit id 1 and unit id 2 in front of the
same PDU give the same parse result. -/
theorem parse_response_header_blind_witness :
    parse_response_adu ([0, 8, 0, 0, 0, 6, 1] ++ [5, 0, 1, 0, 0])
        [5, 0, 1, 0, 0] =
      parse_response_adu ([0, 8, 0, 0, 0, 6, 2] ++ [5, 0, 1, 0, 0])
        [5, 0, 1, 0, 0] :=
  parse_response_header_blind [0, 8, 0, 0, 0, 6, 1] [0, 8, 0, 0, 0, 6, 2]
    [5, 0, 1, 0, 0] [5, 0, 1, 0, 0] (by decide) (by decide)

/-- On a successful single-write decode the response PDU equals the request
PDU. -/
theorem decode_single_write_response_ok (resp_pdu req_pdu : List Nat)
    (v : DecodedValues)
    (h : decode_single_write_response resp_pdu req_pdu = .ok v) :
    resp_pdu = req_pdu := by
  unfold decode_single_write_response at h
  split at h
  · assumption
  · exact Except.noConfusion h

/-- Claim C8: for a register-read response (request function code 3 or 4),
an odd byte count fails with `MalformedResponse`; an even byte count with
that many data bytes yields the big-endian 16-bit register values, half as
many as the byte count. -/
theorem parse_register_read_byte_count (hdr : List Nat) (rc bc : Nat)
    (data rtl : List Nat) (hh : hdr.length = 7) (hrc : rc = 3 ∨ rc = 4) :
    (bc % 2 = 1 →
      parse_response_adu (hdr ++ rc :: bc :: data) (rc :: rtl) =
        .error .malformedResponse) ∧
    (bc % 2 = 0 → data.length = bc →
      parse_response_adu (hdr ++ rc :: bc :: data) (rc :: rtl) =
        .ok (.registers (u16bePairs data)) ∧
      (u16bePairs data).length = bc / 2) := by
  unfold parse_response_adu
  rw [List.drop_left' hh]
  have hb3 : Nat.testBit 3 7 = false := by decide
  have hb4 : Nat.testBit 4 7 = false := by decide
  constructor
  · intro hodd
    rcases hrc with rfl | rfl <;>
      simp [create_function_from_response_pdu, decode_multi_bit_response,
        hb3, hb4, hodd]
  · intro heven hlen
    refine ⟨?_, by rw [u16bePairs_length, hlen]⟩
    rcases hrc with rfl | rfl <;>
      simp [create_function_from_response_pdu, decode_multi_bit_response,
        hb3, hb4, heven, hlen]

/-- Claim C8 witness: byte count 3 is rejected as malformed, and byte count
4 with data bytes 0, 1, 0, 2 yields the registers 1 and 2. -/
theorem parse_register_read_byte_count_witness :
    parse_response_adu ([0, 1, 0, 0, 0, 6, 1] ++ 3 :: 3 :: [9, 9, 9])
        (3 :: [0, 0, 0, 2]) = .error .malformedResponse ∧
    (parse_response_adu ([0, 1, 0, 0, 0, 7, 1] ++ 3 :: 4 :: [0, 1, 0, 2])
        (3 :: [0, 0, 0, 2]) = .ok (.registers (u16bePairs [0, 1, 0, 2])) ∧
      (u16bePairs [0, 1, 0, 2]).length = 4 / 2) :=
  ⟨(parse_register_read_byte_count [0, 1, 0, 0, 0, 6, 1] 3 3 [9, 9, 9]
      [0, 0, 0, 2] (by decide) (Or.inl rfl)).1 (by decide),
   (parse_register_read_byte_count [0, 1, 0, 0, 0, 7, 1] 3 4 [0, 1, 0, 2]
      [0, 0, 0, 2] (by decide) (Or.inl rfl)).2 (by decide) (by decide)⟩

/-- Claim C9: for a single-value write (request function code 5 or 6) a
response is decoded successfully only if its PDU is byte-for-byte the
request PDU; and for the concrete write-single-coil request with slave 1,
address 1, value 0, the echo of the request ADU itself is accepted and
decoded. -/
theorem parse_single_write_echo :
    (∀ (rc : Nat) (rtl resp_adu : List Nat) (v : DecodedValues),
      rc = 5 ∨ rc = 6 →
      parse_response_adu resp_adu (rc :: rtl) = .ok v →
      resp_adu.drop 7 = rc :: rtl) ∧
    (∀ (t : Nat) (adu : List Nat),
      create_request_adu t 1 [5, 0, 1, 0, 0] = some adu →
      parse_response_adu adu [5, 0, 1, 0, 0] = .ok (.writeSingle 1 0)) := by
  constructor
  · intro rc rtl resp_adu v hrc hok
    unfold parse_response_adu at hok
    rcases hpd : resp_adu.drop 7 with _ | ⟨b0, rest⟩ <;> rw [hpd] at hok
    · simp [create_function_from_response_pdu] at hok
    · unfold create_function_from_response_pdu at hok
      rcases hbit : b0.testBit 7 with _ | _
      · simp only [hbit, Bool.false_eq_true, if_false] at hok
        by_cases hb0 : b0 = rc
        · subst hb0
          rcases hrc with rfl | rfl <;>
          · simp only [if_pos rfl] at hok
            norm_num at hok
            exact decode_single_write_response_ok _ _ _ hok
        · simp [hb0] at hok
      · rcases rest with _ | ⟨e, tl⟩ <;> simp [hbit] at hok
  · intro t adu hadu
    obtain ⟨hc, rfl⟩ := (create_request_adu_eq_some_iff t 1 _ adu).mp hadu
    unfold parse_response_adu
    rw [List.drop_left' (by simp)]
    decide

/-- Claim C9 witness: the write-single-coil request ADU with transaction id
8 decodes, when echoed back unchanged, to the written address and value,
and its PDU equals the request PDU. -/
theorem parse_single_write_echo_witness :
    ([0, 8, 0, 0, 0, 6, 1, 5, 0, 1, 0, 0] : List Nat).drop 7 =
      5 :: [0, 1, 0, 0] ∧
    parse_response_adu [0, 8, 0, 0, 0, 6, 1, 5, 0, 1, 0, 0]
      [5, 0, 1, 0, 0] = .ok (.writeSingle 1 0) :=
  ⟨parse_single_write_echo.1 5 [0, 1, 0, 0]
      [0, 8, 0, 0, 0, 6, 1, 5, 0, 1, 0, 0] (.writeSingle 1 0)
      (Or.inl rfl) (by decide),
   parse_single_write_echo.2 8 [0, 8, 0, 0, 0, 6, 1, 5, 0, 1, 0, 0]
      (by decide)⟩

end UModbus
